import Mathlib

/-!
Verification of the complaint classification, routing and notification
pipeline of the Customer Complaint Triage & Routing Agent.

The Python sources are shallowly embedded:
* `src/backend/src/ai_classifier.py` — `ComplaintClassifier`
* `src/backend/src/router.py` — `ComplaintRouter`
* `src/backend/src/email_handler.py` — message construction
* `src/backend/src/database.py` — complaint store
* `src/backend/main.py` — `process_single_complaint`

Python dictionaries with optional keys become structures with `Option`
fields; `dict.get(k, d)` becomes `Option.getD`; exceptions become
`Except`; the external AI call and the network sends become explicit
outcome parameters.  Regular-expression searches are embedded as direct
character-list scanners with the same leftmost / greedy-with-backtracking
semantics as Python `re.search`.
-/

namespace Triage

/-- Python's `needle in hay` prefix test on character lists. -/
def listIsPrefix : List Char → List Char → Bool
  | [], _ => true
  | _ :: _, [] => false
  | a :: as, b :: bs => a == b && listIsPrefix as bs

/-- Python's substring containment `needle in hay` on character lists. -/
def listInfix (needle : List Char) : List Char → Bool
  | [] => needle.isEmpty
  | c :: rest => listIsPrefix needle (c :: rest) || listInfix needle rest

/-- Python's `word in text` on strings. -/
def strContains (hay needle : String) : Bool :=
  listInfix needle.toList hay.toList

/-- Python's `any(word in text for word in kws)`. -/
def anyKeyword (text : String) (kws : List String) : Bool :=
  kws.any (fun w => strContains text w)

/-- Python list membership `x in l` (used for the validation lists). -/
def elemStr (x : String) : List String → Bool
  | [] => false
  | y :: ys => x == y || elemStr x ys

/-- Python `str.lower()` (ASCII, which is all the sources use). -/
def pyLower (s : String) : String :=
  String.mk (s.toList.map Char.toLower)

/-- Python truthiness of `d.get(k)` for an optional string value:
`None` and the empty string are falsy. -/
def strOptTruthy : Option String → Bool
  | none => false
  | some s => !(s == "")

/-- `\s` character class of Python `re`. -/
def isSpaceChar (c : Char) : Bool :=
  c == ' ' || c == '\t' || c == '\n' || c == '\r' || c == '\x0b' || c == '\x0c'

/-- `\w` character class of Python `re` (ASCII part). -/
def isWordChar (c : Char) : Bool :=
  c.isAlphanum || c == '_'

/-- Greedy `\w+` / `\w*`: maximal run of word characters and the rest. -/
def takeWordRun : List Char → List Char × List Char
  | [] => ([], [])
  | c :: rest =>
    if isWordChar c then
      let (run, rem) := takeWordRun rest
      (c :: run, rem)
    else ([], c :: rest)

/-- Greedy `\s*`. -/
def skipSpaces : List Char → List Char
  | [] => []
  | c :: rest => if isSpaceChar c then skipSpaces rest else c :: rest

/-- Case-insensitive literal match (`lit` given lowercase); returns the rest. -/
def matchPrefixCI : List Char → List Char → Option (List Char)
  | [], cs => some cs
  | _ :: _, [] => none
  | l :: ls, c :: cs => if c.toLower == l then matchPrefixCI ls cs else none

/-- One optional character (`x?` with greedy preference then backtracking),
in continuation style so the rest of the pattern can reject either branch. -/
def optCh (p : Char → Bool) (k : List Char → Option (List Char)) :
    List Char → Option (List Char)
  | [] => k []
  | c :: rest =>
    if p c then
      match k rest with
      | some r => some r
      | none => k (c :: rest)
    else k (c :: rest)

/-- `[0-9]{n}`. -/
def digitsN : Nat → List Char → Option (List Char)
  | 0, cs => some cs
  | _ + 1, [] => none
  | n + 1, c :: rest => if c.isDigit then digitsN n rest else none

/-- The separator class `[-.\s]` of the phone pattern. -/
def isSepCh (c : Char) : Bool :=
  c == '-' || c == '.' || isSpaceChar c

/-- The phone pattern
`(\+?1?[-.\s]?\(?[0-9]{3}\)?[-.\s]?[0-9]{3}[-.\s]?[0-9]{4})`
anchored at the head of the list; returns the unconsumed rest. -/
def phoneAt (cs : List Char) : Option (List Char) :=
  optCh (· == '+') (fun r1 =>
    optCh (· == '1') (fun r2 =>
      optCh isSepCh (fun r3 =>
        optCh (· == '(') (fun r4 =>
          match digitsN 3 r4 with
          | none => none
          | some r5 =>
            optCh (· == ')') (fun r6 =>
              optCh isSepCh (fun r7 =>
                match digitsN 3 r7 with
                | none => none
                | some r8 => optCh isSepCh (fun r9 => digitsN 4 r9) r8) r6) r5)
          r3) r2) r1) cs

/-- `re.search` driver: try the anchored matcher at each start position,
leftmost first, and return the consumed (matched) text. -/
def searchConsumed (f : List Char → Option (List Char)) :
    List Char → Option String
  | [] => none
  | c :: rest =>
    match f (c :: rest) with
    | some rem =>
      some (String.mk ((c :: rest).take ((c :: rest).length - rem.length)))
    | none => searchConsumed f rest

/-- `re.search(phone_pattern, text)` group 1 (the whole match). -/
def phoneSearch (cs : List Char) : Option String :=
  searchConsumed phoneAt cs

/-- `re.search` driver for matchers that return their capture group. -/
def searchCapture (f : List Char → Option String) :
    List Char → Option String
  | [] => none
  | c :: rest =>
    match f (c :: rest) with
    | some v => some v
    | none => searchCapture f rest

/-- `order\s*#?\s*(\w+)` (IGNORECASE) anchored; returns the capture. -/
def orderPat1At (cs : List Char) : Option String :=
  match matchPrefixCI "order".toList cs with
  | none => none
  | some r1 =>
    let r2 := skipSpaces r1
    let r3 := match r2 with
      | '#' :: t => t
      | _ => r2
    let r4 := skipSpaces r3
    match takeWordRun r4 with
    | ([], _) => none
    | (run, _) => some (String.mk run)

/-- `order\s*number\s*:?\s*(\w+)` (IGNORECASE) anchored. -/
def orderPat2At (cs : List Char) : Option String :=
  match matchPrefixCI "order".toList cs with
  | none => none
  | some r1 =>
    match matchPrefixCI "number".toList (skipSpaces r1) with
    | none => none
    | some r2 =>
      let r3 := skipSpaces r2
      let r4 := match r3 with
        | ':' :: t => t
        | _ => r3
      let r5 := skipSpaces r4
      match takeWordRun r5 with
      | ([], _) => none
      | (run, _) => some (String.mk run)

/-- `#(\w{6,})` anchored. -/
def orderPat3At (cs : List Char) : Option String :=
  match cs with
  | '#' :: rest =>
    let (run, _) := takeWordRun rest
    if run.length ≥ 6 then some (String.mk run) else none
  | _ => none

/-- `ref\s*:?\s*(\w+)` (IGNORECASE) anchored. -/
def orderPat4At (cs : List Char) : Option String :=
  match matchPrefixCI "ref".toList cs with
  | none => none
  | some r1 =>
    let r2 := skipSpaces r1
    let r3 := match r2 with
      | ':' :: t => t
      | _ => r2
    let r4 := skipSpaces r3
    match takeWordRun r4 with
    | ([], _) => none
    | (run, _) => some (String.mk run)

/-- `\$(\d+(?:\.\d{2})?)` anchored: digits, optional dot and two digits. -/
def amountAt (cs : List Char) : Option String :=
  match cs with
  | '$' :: rest =>
    match takeDigitRun rest with
    | ([], _) => none
    | (ds, rem) =>
      match rem with
      | '.' :: d1 :: d2 :: _ =>
        if d1.isDigit && d2.isDigit then
          some (String.mk (ds ++ '.' :: d1 :: [d2]))
        else some (String.mk ds)
      | _ => some (String.mk ds)
  | _ => none
where
  takeDigitRun : List Char → List Char × List Char
    | [] => ([], [])
    | c :: rest =>
      if c.isDigit then
        let (run, rem) := takeDigitRun rest
        (c :: run, rem)
      else ([], c :: rest)

/-- `re.search(amount_pattern, text)` capture group. -/
def amountSearch (cs : List Char) : Option String :=
  searchCapture amountAt cs

/-! ## Data model: email input, entities, classification -/

/-- The email dictionary handed to the classifier and to
`process_single_complaint` (optional keys as in the Python dict). -/
structure EmailData where
  email_id : Option String := none
  subject : Option String := none
  body : Option String := none
  sender : Option String := none
  customer_email : Option String := none
  internal_id : Option String := none
deriving Repr, DecidableEq

/-- `key_entities`: the entity kinds written by the classifier. -/
structure Entities where
  order_number : Option String := none
  phone_number : Option String := none
  amount : Option String := none
  account_number : Option String := none
  product_name : Option String := none
deriving Repr, DecidableEq

/-- The classification dictionary produced by `ComplaintClassifier`.
`customer_name`, `summary` and `suggested_action` may be absent keys on
the AI path, hence `Option`. -/
structure Classification where
  customer_name : Option String := none
  customer_email : String := ""
  category : String
  priority : String
  sentiment : String
  key_entities : Entities := {}
  summary : Option String := none
  suggested_action : Option String := none
deriving Repr, DecidableEq

/-- `valid_categories` of `_enhance_classification`. -/
def valid_categories : List String :=
  ["Billing Issue", "Product Defect", "Refund Request",
   "Technical Support", "Delivery Problem", "Account Issue", "General Inquiry"]

/-- `valid_priorities` of `_enhance_classification`. -/
def valid_priorities : List String :=
  ["Urgent", "High", "Medium", "Low"]

/-- `valid_sentiments` of `_enhance_classification`. -/
def valid_sentiments : List String :=
  ["Angry", "Frustrated", "Neutral", "Satisfied"]

/-! ## `ai_classifier.py` embedding -/

/-- `_extract_name_from_sender`: drop `<...>` address parts. The regex
`<[^>]+>` needs at least one non-`>` character before the closing `>`. -/
def dropAngleAt : List Char → Option (List Char)
  | [] => none
  | '>' :: _ => none
  | _ :: rest => tillGt rest
where
  tillGt : List Char → Option (List Char)
    | [] => none
    | '>' :: rest => some rest
    | _ :: rest => tillGt rest

/-- `re.sub(r'<[^>]+>', '', s)` (fuelled so each jump past a match is fine). -/
def removeAnglesFuel : Nat → List Char → List Char
  | 0, cs => cs
  | _ + 1, [] => []
  | n + 1, '<' :: rest =>
    match dropAngleAt rest with
    | some rem => removeAnglesFuel n rem
    | none => '<' :: removeAnglesFuel n rest
  | n + 1, c :: rest => c :: removeAnglesFuel n rest

def removeAngles (cs : List Char) : List Char :=
  removeAnglesFuel cs.length cs

/-- For `re.sub(r'"[^"]*"', '', s)`: consume up to the closing quote. -/
def dropQuoteAt : List Char → Option (List Char)
  | [] => none
  | '"' :: rest => some rest
  | _ :: rest => dropQuoteAt rest

def removeQuotesFuel : Nat → List Char → List Char
  | 0, cs => cs
  | _ + 1, [] => []
  | n + 1, '"' :: rest =>
    match dropQuoteAt rest with
    | some rem => removeQuotesFuel n rem
    | none => '"' :: removeQuotesFuel n rest
  | n + 1, c :: rest => c :: removeQuotesFuel n rest

def removeQuotes (cs : List Char) : List Char :=
  removeQuotesFuel cs.length cs

/-- Python `str.strip()`. -/
def pyStrip (cs : List Char) : List Char :=
  ((cs.dropWhile isSpaceChar).reverse.dropWhile isSpaceChar).reverse

/-- `re.sub(r'^(Mr\.|Ms\.|Mrs\.|Dr\.)\s*', '', name, flags=IGNORECASE)`:
alternatives tried in order, anchored at the start, at most once. -/
def stripHonorific (cs : List Char) : List Char :=
  match matchPrefixCI "mr.".toList cs with
  | some r => skipSpaces r
  | none =>
    match matchPrefixCI "ms.".toList cs with
    | some r => skipSpaces r
    | none =>
      match matchPrefixCI "mrs.".toList cs with
      | some r => skipSpaces r
      | none =>
        match matchPrefixCI "dr.".toList cs with
        | some r => skipSpaces r
        | none => cs

/-- `_extract_name_from_sender`. -/
def extract_name_from_sender (sender : String) : String :=
  let n1 := pyStrip (removeAngles sender.toList)
  let n2 := pyStrip (removeQuotes n1)
  let n3 := stripHonorific n2
  if n3.length > 2 then String.mk n3 else "Unknown"

/-- The `for pattern in order_patterns` loop of
`_extract_additional_entities`: first pattern with a match sets
`order_number` (if not already truthy) and breaks. -/
def orderLoop (t : List Char) (e : Entities) : Entities :=
  go [searchCapture orderPat1At, searchCapture orderPat2At,
      searchCapture orderPat3At, searchCapture orderPat4At] e
where
  go : List (List Char → Option String) → Entities → Entities
    | [], e => e
    | p :: ps, e =>
      match p t with
      | some v =>
        if strOptTruthy e.order_number then go ps e
        else { e with order_number := some v }
      | none => go ps e

/-- `_extract_additional_entities`. -/
def extract_additional_entities (d : EmailData) (existing : Entities) :
    Entities :=
  let t := ((d.subject.getD "") ++ " " ++ (d.body.getD "")).toList
  let e1 := orderLoop t existing
  let e2 :=
    match phoneSearch t with
    | some v =>
      if strOptTruthy e1.phone_number then e1
      else { e1 with phone_number := some v }
    | none => e1
  match amountSearch t with
  | some v =>
    if strOptTruthy e2.amount then e2
    else { e2 with amount := some ("$" ++ v) }
  | none => e2

/-- The lower-cased subject+body text of `_get_fallback_classification`. -/
def fallbackText (d : EmailData) : String :=
  pyLower ((d.subject.getD "") ++ " " ++ (d.body.getD ""))

/-- Keyword category chain of `_get_fallback_classification`. -/
def fallbackCategory (t : String) : String :=
  if anyKeyword t ["bill", "charge", "payment", "invoice", "subscription"] then
    "Billing Issue"
  else if anyKeyword t ["broken", "defective", "not working", "malfunction"] then
    "Product Defect"
  else if anyKeyword t ["refund", "return", "cancel", "money back"] then
    "Refund Request"
  else if anyKeyword t ["technical", "bug", "error", "login", "password"] then
    "Technical Support"
  else if anyKeyword t ["delivery", "shipping", "late", "missing"] then
    "Delivery Problem"
  else if anyKeyword t ["account", "profile", "settings"] then
    "Account Issue"
  else "General Inquiry"

/-- Keyword priority chain of `_get_fallback_classification`. -/
def fallbackPriority (t : String) : String :=
  if anyKeyword t ["urgent", "immediately", "asap", "critical"] then "Urgent"
  else if anyKeyword t ["broken", "not working", "frustrated", "angry"] then "High"
  else if anyKeyword t ["question", "info", "help"] then "Low"
  else "Medium"

/-- Keyword sentiment chain of `_get_fallback_classification`. -/
def fallbackSentiment (t : String) : String :=
  if anyKeyword t ["angry", "furious", "unacceptable", "terrible"] then "Angry"
  else if anyKeyword t ["frustrated", "annoying", "disappointed"] then "Frustrated"
  else if anyKeyword t ["thank", "good", "satisfied", "happy"] then "Satisfied"
  else "Neutral"

/-- `_get_fallback_classification`. -/
def get_fallback_classification (d : EmailData) : Classification :=
  let t := fallbackText d
  { customer_name := some (extract_name_from_sender (d.sender.getD "")),
    customer_email := d.customer_email.getD "",
    category := fallbackCategory t,
    priority := fallbackPriority t,
    sentiment := fallbackSentiment t,
    key_entities := extract_additional_entities d {},
    summary := some ("Customer complaint regarding " ++ pyLower (fallbackCategory t)),
    suggested_action := some "Review complaint and respond appropriately" }

/-- `_get_default_classification` (used when response parsing fails). -/
def default_classification : Classification :=
  { customer_name := some "Unknown",
    customer_email := "",
    category := "General Inquiry",
    priority := "Medium",
    sentiment := "Neutral",
    key_entities := {},
    summary := some "Unable to analyze complaint content",
    suggested_action := some "Manual review required" }

/-- A well-formed JSON object found in the AI response, with the keys the
parser reads (extra keys are dropped, absent keys are `none`). -/
structure ParsedRaw where
  customer_name : Option String := none
  category : Option String := none
  priority : Option String := none
  sentiment : Option String := none
  key_entities : Entities := {}
  summary : Option String := none
  suggested_action : Option String := none
deriving Repr, DecidableEq

/-- Outcome of scanning the raw response text for a JSON object:
either no JSON object / undecodable JSON, or a decoded object. -/
inductive ParseOutcome where
  | parseFail : ParseOutcome
  | parsed : ParsedRaw → ParseOutcome
deriving Repr, DecidableEq

/-- Outcome of the external AI call: an exception (network error,
timeout, missing response content), or raw text to parse. -/
inductive AIResult where
  | apiError : AIResult
  | response : ParseOutcome → AIResult
deriving Repr, DecidableEq

/-- `_parse_claude_response`: parse failures are caught here and yield
the default classification; otherwise required fields missing from the
JSON are filled with `'Unknown'`. -/
def parse_claude_response : ParseOutcome → Classification
  | .parseFail => default_classification
  | .parsed r =>
    { customer_name := r.customer_name,
      customer_email := "",
      category := r.category.getD "Unknown",
      priority := r.priority.getD "Unknown",
      sentiment := r.sentiment.getD "Unknown",
      key_entities := r.key_entities,
      summary := r.summary,
      suggested_action := r.suggested_action }

/-- `_enhance_classification`: set `customer_email`, recover
`customer_name`, clamp `category`/`priority`/`sentiment` to their
enumerations, and merge the regex-extracted entities. -/
def enhance_classification (c : Classification) (d : EmailData) :
    Classification :=
  { customer_name :=
      if c.customer_name == some "Unknown" then
        some (extract_name_from_sender (d.sender.getD ""))
      else c.customer_name,
    customer_email := d.customer_email.getD "",
    category :=
      if elemStr c.category valid_categories then c.category
      else "General Inquiry",
    priority :=
      if elemStr c.priority valid_priorities then c.priority else "Medium",
    sentiment :=
      if elemStr c.sentiment valid_sentiments then c.sentiment else "Neutral",
    key_entities := extract_additional_entities d c.key_entities,
    summary := c.summary,
    suggested_action := c.suggested_action }

/-- The body of the `try` block of `classify_complaint`: an API failure
is an exception; a response is parsed and enhanced. -/
def classify_attempt (d : EmailData) : AIResult → Except Unit Classification
  | .apiError => .error ()
  | .response p => .ok (enhance_classification (parse_claude_response p) d)

/-- `classify_complaint`: any exception from the attempt is caught and
replaced by the fallback classification. -/
def classify_complaint (d : EmailData) (r : AIResult) : Classification :=
  match classify_attempt d r with
  | .ok c => c
  | .error _ => get_fallback_classification d

/-! ## `router.py` and `email_handler.py` embedding -/

/-- The `complaint_data` dictionary flowing through `main.py` and
`router.py` (optional keys as in the Python dict). -/
structure ComplaintData where
  email_id : Option String := none
  customer_email : Option String := none
  customer_name : Option String := none
  subject : Option String := none
  body : Option String := none
  category : Option String := none
  priority : Option String := none
  sentiment : Option String := none
  key_entities : Option Entities := none
  summary : Option String := none
  suggested_action : Option String := none
  assigned_team : Option String := none
  id : Option Nat := none
  escalation_reason : Option String := none
deriving Repr, DecidableEq

/-- `Config` fields read by the router (`config.py` defaults are in
`defaultRouterConfig`). -/
structure RouterConfig where
  billing_team_email : String
  tech_team_email : String
  refunds_team_email : String
  delivery_team_email : String
  account_team_email : String
  general_team_email : String
  manager_email : String
  slack_webhook_url : Option String
deriving Repr, DecidableEq

/-- The env-var defaults of `config.py`. -/
def defaultRouterConfig : RouterConfig :=
  { billing_team_email := "billing@company.com",
    tech_team_email := "tech@company.com",
    refunds_team_email := "refunds@company.com",
    delivery_team_email := "delivery@company.com",
    account_team_email := "accounts@company.com",
    general_team_email := "support@company.com",
    manager_email := "manager@company.com",
    slack_webhook_url := none }

/-- `Config.get_team_email`: `team_mapping.get(category, general)`. -/
def config_get_team_email (cfg : RouterConfig) (category : String) : String :=
  if category == "Billing Issue" then cfg.billing_team_email
  else if category == "Product Defect" then cfg.tech_team_email
  else if category == "Refund Request" then cfg.refunds_team_email
  else if category == "Technical Support" then cfg.tech_team_email
  else if category == "Delivery Problem" then cfg.delivery_team_email
  else if category == "Account Issue" then cfg.account_team_email
  else if category == "General Inquiry" then cfg.general_team_email
  else cfg.general_team_email

/-- `_determine_assigned_team`: `team_mapping.get(category, default)`. -/
def determine_assigned_team (category : String) : String :=
  if category == "Billing Issue" then "Billing Team"
  else if category == "Product Defect" then "Technical Team"
  else if category == "Refund Request" then "Refunds Team"
  else if category == "Technical Support" then "Technical Team"
  else if category == "Delivery Problem" then "Delivery Team"
  else if category == "Account Issue" then "Account Team"
  else if category == "General Inquiry" then "General Support Team"
  else "General Support Team"

/-- `_determine_escalation_actions`:
`escalation_rules.get(priority, ['team'])`. -/
def determine_escalation_actions (priority : String) : List String :=
  if priority == "Urgent" then ["manager", "team"]
  else if priority == "High" then ["manager"]
  else if priority == "Medium" then ["team"]
  else if priority == "Low" then ["team"]
  else ["team"]

/-- The `routing_result` dictionary of `route_complaint`. -/
structure RoutingResult where
  complaint_id : Option Nat
  assigned_team : String
  team_email : String
  priority : String
  escalation_actions : List String
  routing_timestamp : String
  status : String
deriving Repr, DecidableEq

/-- `route_complaint`.  The Python function also mutates its
`complaint_data` argument (`complaint_data['assigned_team'] = ...`), so
the embedding returns the updated dictionary alongside the result.
`datetime.now()` is passed in as `now`. -/
def route_complaint (cfg : RouterConfig) (now : String) (cd : ComplaintData) :
    ComplaintData × RoutingResult :=
  let category := cd.category.getD "General Inquiry"
  let priority := cd.priority.getD "Medium"
  let assigned_team := determine_assigned_team category
  let cd' := { cd with assigned_team := some assigned_team }
  (cd',
   { complaint_id := cd.id,
     assigned_team := assigned_team,
     team_email := config_get_team_email cfg category,
     priority := priority,
     escalation_actions := determine_escalation_actions priority,
     routing_timestamp := now,
     status := "routed" })

/-- str(complaint_data.get('id', 'TBD')) as interpolated by f-strings. -/
def idStr : Option Nat → String
  | some n => toString n
  | none => "TBD"

/-- An email handed to SMTP.  `EmailHandler.send_team_notification`
derives both the subject header and the body text from the
`complaint_data` dictionary it is given, so the message is recorded as
the subject header plus that dictionary. -/
structure EmailMsg where
  toAddr : String
  subject : String
  payload : ComplaintData
deriving Repr, DecidableEq

/-- The message built by `EmailHandler.send_team_notification`:
subject `New {priority} Priority Complaint - #{id}`, body rendered from
`complaint_data` by `_create_team_notification_text`. -/
def mkTeamNotificationMsg (team_email : String) (cd : ComplaintData) :
    EmailMsg :=
  { toAddr := team_email,
    subject := "New " ++ cd.priority.getD "Medium" ++ " Priority Complaint - #"
      ++ idStr cd.id,
    payload := cd }

/-- The message built by `EmailHandler.send_acknowledgment_email`. -/
def mkAcknowledgmentMsg (customer_email : String) (cd : ComplaintData) :
    EmailMsg :=
  { toAddr := customer_email,
    subject := "Re: " ++ cd.subject.getD "Your Complaint",
    payload := cd }

/-- `_create_manager_notification`: the escalation dictionary built (and,
in the source, discarded) by `_send_escalation_notifications`. -/
def create_manager_notification (rr : RoutingResult) (cd : ComplaintData) :
    ComplaintData :=
  { cd with
    subject := some ("ESCALATION: " ++ rr.priority ++ " Priority Complaint - #"
      ++ idStr cd.id),
    escalation_reason :=
      some ("Complaint escalated due to " ++ rr.priority ++ " priority level"),
    assigned_team := some "Management" }

/-- Success/failure of each side-effecting network call, supplied by the
environment (SMTP sends and the Slack webhook POST). -/
structure SendEnv where
  teamSendOk : Bool
  managerSendOk : Bool
  slackPostOk : Bool
  ackSendOk : Bool
deriving Repr, DecidableEq

/-- `_send_slack_notification`: returns `(sent, posted)` where `posted`
records whether the webhook POST was attempted. -/
def slack_notification (cfg : RouterConfig) (env : SendEnv) : Bool × Bool :=
  if strOptTruthy cfg.slack_webhook_url then (env.slackPostOk, true)
  else (false, false)

/-- `_send_escalation_notifications`: if `manager` is among the
escalation actions, email the manager — the source passes the original
`complaint_data`, not the dictionary built by
`_create_manager_notification`.  Returns the success flag and the
messages sent. -/
def send_escalation_notifications (cfg : RouterConfig) (env : SendEnv)
    (rr : RoutingResult) (cd : ComplaintData) : Bool × List EmailMsg :=
  if rr.escalation_actions.contains "manager" then
    (env.managerSendOk, [mkTeamNotificationMsg cfg.manager_email cd])
  else (true, [])

/-- Observable effects of the notification fan-out: the messages handed
to SMTP, whether the Slack POST happened, and the per-channel flags the
source computes (and logs) internally. -/
structure NotifyTrace where
  emails : List EmailMsg := []
  slackPosted : Bool := false
  email_sent : Bool := false
  slack_sent : Bool := false
  escalation_sent : Bool := false
deriving Repr, DecidableEq

/-- `ComplaintRouter.send_team_notification`: team email, then Slack
(only for a configured webhook and Urgent/High priority), then
escalation.  The Python function returns only `email_sent`; the embedding
returns that value together with the effect trace. -/
def send_team_notification (cfg : RouterConfig) (env : SendEnv)
    (rr : RoutingResult) (cd : ComplaintData) : Bool × NotifyTrace :=
  let team_email := rr.team_email
  let email_sent := env.teamSendOk
  let teamMsg := mkTeamNotificationMsg team_email cd
  let (slack_sent, slackPosted) :=
    if strOptTruthy cfg.slack_webhook_url
        && (rr.priority == "Urgent" || rr.priority == "High") then
      slack_notification cfg env
    else (false, false)
  let (escalation_sent, escMsgs) := send_escalation_notifications cfg env rr cd
  (email_sent,
   { emails := teamMsg :: escMsgs,
     slackPosted := slackPosted,
     email_sent := email_sent,
     slack_sent := slack_sent,
     escalation_sent := escalation_sent })

/-! ## `database.py` and `main.py` embedding -/

/-- A persisted row of the `complaints` table. -/
structure DBRow where
  id : Nat
  email_id : String
  customer_email : String
  customer_name : Option String
  subject : String
  body : String
  category : String
  priority : String
  sentiment : Option String
  assigned_team : String
  key_entities : Option Entities
  summary : Option String
  suggested_action : Option String
deriving Repr, DecidableEq

/-- The SQLite store: rows plus the autoincrement counter. -/
structure DB where
  rows : List DBRow := []
  nextId : Nat := 1
deriving Repr, DecidableEq

/-- Errors raised by `insert_complaint`: a `KeyError` from a missing
required dictionary key while building the parameter tuple, or the
`ValueError` raised on a duplicate `email_id` (UNIQUE constraint). -/
inductive DbErr where
  | keyError : DbErr
  | duplicate : DbErr
deriving Repr, DecidableEq

/-- `get_complaint_by_email_id`. -/
def get_complaint_by_email_id (db : DB) (email_id : String) : Option DBRow :=
  db.rows.find? (fun r => r.email_id == email_id)

/-- `insert_complaint`: the parameter tuple reads
`complaint_data['email_id']`, `['customer_email']`, `['subject']`,
`['body']`, `['category']`, `['priority']` and `['assigned_team']` with
`[]` (raising `KeyError` when absent) and the remaining columns with
`.get`; a duplicate `email_id` raises. -/
def insert_complaint (db : DB) (cd : ComplaintData) :
    Except DbErr (Nat × DB) :=
  match cd.email_id, cd.customer_email, cd.subject, cd.body,
      cd.category, cd.priority, cd.assigned_team with
  | some eid, some ce, some subj, some bod, some cat, some pri, some team =>
    if db.rows.any (fun r => r.email_id == eid) then .error .duplicate
    else
      .ok (db.nextId,
        { rows := db.rows ++
            [{ id := db.nextId, email_id := eid, customer_email := ce,
               customer_name := cd.customer_name, subject := subj, body := bod,
               category := cat, priority := pri, sentiment := cd.sentiment,
               assigned_team := team, key_entities := cd.key_entities,
               summary := cd.summary, suggested_action := cd.suggested_action }],
          nextId := db.nextId + 1 })
  | _, _, _, _, _, _, _ => .error .keyError

/-- The per-complaint counters returned by `process_single_complaint`. -/
structure ProcResult where
  classified : Nat
  routed : Nat
  notifications_sent : Nat
deriving Repr, DecidableEq

/-- The exception re-raised by `process_single_complaint`. -/
inductive ProcErr where
  | db : DbErr → ProcErr
deriving Repr, DecidableEq

/-- Observable effects of processing one complaint. -/
structure ProcTrace where
  classified : Bool := false
  ackAttempted : Bool := false
  emails : List EmailMsg := []
  slackPosted : Bool := false
deriving Repr, DecidableEq

/-- Inputs the environment supplies to one processing run: the AI call
outcome, the configuration, the network send outcomes, and the clock. -/
structure ProcEnv where
  aiResult : AIResult
  cfg : RouterConfig
  sendEnv : SendEnv
  now : String
deriving Repr, DecidableEq

/-- `main.ComplaintTriageAgent.process_single_complaint`: look up the
email id first and skip when found; otherwise classify, insert (the
source does this before routing), route, then send the acknowledgment
and the team fan-out.  An insert exception propagates (`raise`), leaving
the store unchanged. -/
def process_single_complaint (env : ProcEnv) (db : DB) (d : EmailData) :
    Except ProcErr ProcResult × DB × ProcTrace :=
  let email_id := d.email_id.getD "unknown"
  match get_complaint_by_email_id db email_id with
  | some _ =>
    (.ok { classified := 0, routed := 0, notifications_sent := 0 }, db, {})
  | none =>
    let cls := classify_complaint d env.aiResult
    let cd : ComplaintData :=
      { email_id := some email_id,
        customer_email := some (d.customer_email.getD ""),
        subject := some (d.subject.getD ""),
        body := some (d.body.getD ""),
        customer_name := cls.customer_name,
        category := some cls.category,
        priority := some cls.priority,
        sentiment := some cls.sentiment,
        key_entities := some cls.key_entities,
        summary := cls.summary,
        suggested_action := cls.suggested_action }
    match insert_complaint db cd with
    | .error e => (.error (.db e), db, { classified := true })
    | .ok (cid, db1) =>
      let cd1 := { cd with id := some cid }
      let (cd2, rr) := route_complaint env.cfg env.now cd1
      let ackAttempted := strOptTruthy cd2.customer_email
      let ackOk := ackAttempted && env.sendEnv.ackSendOk
      let ackMsgs :=
        if ackAttempted then [mkAcknowledgmentMsg (cd2.customer_email.getD "") cd2]
        else []
      let (teamRet, nt) := send_team_notification env.cfg env.sendEnv rr cd2
      let n := (if ackOk then 1 else 0) + (if teamRet then 1 else 0)
      (.ok { classified := 1, routed := 1, notifications_sent := n },
       db1,
       { classified := true,
         ackAttempted := ackAttempted,
         emails := ackMsgs ++ nt.emails,
         slackPosted := nt.slackPosted })

/-! ## Shared lemmas -/

/-- Any value the fallback category chain produces is a valid category. -/
theorem fallbackCategory_mem (t : String) :
    elemStr (fallbackCategory t) valid_categories = true := by
  unfold fallbackCategory
  repeat' split
  all_goals decide

/-- Any value the fallback priority chain produces is a valid priority. -/
theorem fallbackPriority_mem (t : String) :
    elemStr (fallbackPriority t) valid_priorities = true := by
  unfold fallbackPriority
  repeat' split
  all_goals decide

/-- Any value the fallback sentiment chain produces is a valid sentiment. -/
theorem fallbackSentiment_mem (t : String) :
    elemStr (fallbackSentiment t) valid_sentiments = true := by
  unfold fallbackSentiment
  repeat' split
  all_goals decide

/-- Clamping against a validation list lands in the list whenever the
default does. -/
theorem elemStr_clamp (l : List String) (dflt c : String)
    (hd : elemStr dflt l = true) :
    elemStr (if elemStr c l then c else dflt) l = true := by
  cases hc : elemStr c l <;> simp [hc, hd]

/-! ## Claims -/

/-- C1: for every email input and every outcome of the external
classification service (exception, malformed response, or any decoded
JSON object), the classification returned by `classify_complaint` has a
category among the seven valid categories, a priority among the four
valid priorities, and a sentiment among the four valid sentiments. -/
theorem claim1_classification_enumerations (d : EmailData) (r : AIResult) :
    elemStr (classify_complaint d r).category valid_categories = true ∧
    elemStr (classify_complaint d r).priority valid_priorities = true ∧
    elemStr (classify_complaint d r).sentiment valid_sentiments = true := by
  cases r with
  | apiError =>
    simp only [classify_complaint, classify_attempt, get_fallback_classification]
    exact ⟨fallbackCategory_mem _, fallbackPriority_mem _, fallbackSentiment_mem _⟩
  | response p =>
    simp only [classify_complaint, classify_attempt, enhance_classification]
    exact ⟨elemStr_clamp _ _ _ (by decide), elemStr_clamp _ _ _ (by decide),
      elemStr_clamp _ _ _ (by decide)⟩

/-- The §8 example email: an unexpected charge with the word
"Unacceptable" in the body. -/
def email_c2 : EmailData :=
  { email_id := some "c2-email",
    subject := some "Unusual charge",
    body := some "Charged $150 for a service I never ordered. Unacceptable.",
    sender := some "John Doe <john@x.com>",
    customer_email := some "john@x.com" }

/-- C2 counterexample: with the classification service unavailable the
fallback gives this email priority `Medium`, not `Urgent` — the word
"unacceptable" appears only in the Angry-sentiment keyword list, and no
keyword of the Urgent, High or Low priority lists occurs in the text. -/
theorem claim2_counterexample :
    (classify_complaint email_c2 .apiError).priority = "Medium" ∧
    (classify_complaint email_c2 .apiError).priority ≠ "Urgent" := by
  decide

/-- C2 amended: for the example email with the classification service
unavailable, the fallback classifier fires and returns category
`Billing Issue` (keyword "charge"), priority `Medium` (no priority
keyword matches — "unacceptable" only drives sentiment), sentiment
`Angry`, and `entities.amount = "$150"`. -/
theorem claim2_amended_fallback_example :
    classify_complaint email_c2 .apiError = get_fallback_classification email_c2 ∧
    (classify_complaint email_c2 .apiError).category = "Billing Issue" ∧
    (classify_complaint email_c2 .apiError).priority = "Medium" ∧
    (classify_complaint email_c2 .apiError).sentiment = "Angry" ∧
    (classify_complaint email_c2 .apiError).key_entities.amount = some "$150" := by
  decide

/-- A refund email used to separate the parse-failure path from the
keyword fallback path. -/
def email_c3 : EmailData :=
  { email_id := some "c3-email",
    subject := some "Refund please",
    body := some "I want my money back",
    sender := some "Ann Lee <ann@x.com>",
    customer_email := some "ann@x.com" }

/-- C3 counterexample: when the AI response contains no parseable JSON,
`classify_complaint` does not return the deterministic keyword fallback —
the parse failure is absorbed inside `_parse_claude_response`, which
substitutes the fixed default classification (category `General
Inquiry`) instead of running the keyword rules (which would give
`Refund Request` here). -/
theorem claim3_counterexample :
    (classify_complaint email_c3 (.response .parseFail)).category
        = "General Inquiry" ∧
    (get_fallback_classification email_c3).category = "Refund Request" ∧
    classify_complaint email_c3 (.response .parseFail)
        ≠ get_fallback_classification email_c3 := by
  decide

/-- C3 amended: `classify_complaint` never propagates a failure — when
the attempt (API call plus parsing plus post-processing) raises, the
keyword fallback classification is returned, and when the attempt
completes, its result is returned; a malformed response is not a raised
failure but is absorbed by the parser as the default classification. -/
theorem claim3_amended_never_throws (d : EmailData) (r : AIResult) :
    ((classify_attempt d r).isOk = false →
       classify_complaint d r = get_fallback_classification d) ∧
    (∀ c : Classification, classify_attempt d r = .ok c →
       classify_complaint d r = c) := by
  constructor
  · intro h
    cases r with
    | apiError => rfl
    | response p => simp [classify_attempt, Except.isOk, Except.toBool] at h
  · intro c h
    cases r with
    | apiError => simp [classify_attempt] at h
    | response p =>
      simp only [classify_attempt] at h
      cases h
      rfl

/-- Witness for C3: at the refund email, an API failure yields the
keyword fallback and a parse failure yields the enhanced default. -/
theorem claim3_witness :
    classify_complaint email_c3 .apiError
        = get_fallback_classification email_c3 ∧
    classify_complaint email_c3 (.response .parseFail)
        = enhance_classification default_classification email_c3 := by
  exact ⟨(claim3_amended_never_throws email_c3 .apiError).1 rfl,
    (claim3_amended_never_throws email_c3 (.response .parseFail)).2 _ rfl⟩

/-- All network sends succeed. -/
def sendEnvAllOk : SendEnv :=
  { teamSendOk := true, managerSendOk := true, slackPostOk := true,
    ackSendOk := true }

/-- All network sends succeed except the manager escalation email. -/
def sendEnvManagerFail : SendEnv :=
  { sendEnvAllOk with managerSendOk := false }

/-- An urgent billing complaint already persisted with id 1. -/
def cd_c4 : ComplaintData :=
  { email_id := some "e4",
    customer_email := some "cust@x.com",
    subject := some "Login broken",
    body := some "Cannot log in",
    category := some "Technical Support",
    priority := some "Urgent",
    id := some 1 }

/-- The complaint dictionary after routing wrote `assigned_team` into it. -/
def cd_c4_routed : ComplaintData :=
  (route_complaint defaultRouterConfig "t4" cd_c4).1

/-- The routing decision for `cd_c4`. -/
def rr_c4 : RoutingResult :=
  (route_complaint defaultRouterConfig "t4" cd_c4).2

/-- C4: a manager email is attempted exactly when `manager` is among the
escalation actions, but the message actually sent is the plain team
notification built from the original complaint data — its subject is
`New Urgent Priority Complaint - #1` with no `ESCALATION:` prefix and
its data carries no escalation reason, while the `ESCALATION:`-subject
dictionary built by `_create_manager_notification` is discarded. -/
theorem claim4_escalation_bug :
    (∀ (cfg : RouterConfig) (env : SendEnv) (rr : RoutingResult)
        (cd : ComplaintData),
      (send_escalation_notifications cfg env rr cd).2 =
        if rr.escalation_actions.contains "manager" then
          [mkTeamNotificationMsg cfg.manager_email cd]
        else []) ∧
    (send_escalation_notifications defaultRouterConfig sendEnvAllOk rr_c4
        cd_c4_routed).2
      = [mkTeamNotificationMsg "manager@company.com" cd_c4_routed] ∧
    (mkTeamNotificationMsg "manager@company.com" cd_c4_routed).subject
      = "New Urgent Priority Complaint - #1" ∧
    listIsPrefix "ESCALATION:".toList
        (mkTeamNotificationMsg "manager@company.com" cd_c4_routed).subject.toList
      = false ∧
    (mkTeamNotificationMsg "manager@company.com" cd_c4_routed).payload.escalation_reason
      = none ∧
    (create_manager_notification rr_c4 cd_c4_routed).subject
      = some "ESCALATION: Urgent Priority Complaint - #1" ∧
    (create_manager_notification rr_c4 cd_c4_routed).escalation_reason
      = some "Complaint escalated due to Urgent priority level" := by
  refine ⟨fun cfg env rr cd => ?_, by decide⟩
  cases h : rr.escalation_actions.contains "manager" <;>
    simp only [send_escalation_notifications, h] <;> rfl

/-- An urgent billing complaint for the fan-out counterexample. -/
def cd_c5 : ComplaintData :=
  { email_id := some "e5",
    customer_email := some "a@b.c",
    subject := some "s",
    body := some "b",
    category := some "Billing Issue",
    priority := some "Urgent",
    id := some 1 }

/-- The routing decision for `cd_c5`. -/
def rr_c5 : RoutingResult :=
  (route_complaint defaultRouterConfig "t5" cd_c5).2

/-- C5 counterexample: two runs that differ in the escalation channel's
outcome (success vs. failure) give the identical return value `True` —
the value returned by the notification fan-out is a single boolean and
does not expose the escalation (or Slack) channel's success. -/
theorem claim5_counterexample :
    (send_team_notification defaultRouterConfig sendEnvAllOk rr_c5 cd_c5).2.escalation_sent
      = true ∧
    (send_team_notification defaultRouterConfig sendEnvManagerFail rr_c5 cd_c5).2.escalation_sent
      = false ∧
    (send_team_notification defaultRouterConfig sendEnvAllOk rr_c5 cd_c5).1
      = true ∧
    (send_team_notification defaultRouterConfig sendEnvManagerFail rr_c5 cd_c5).1
      = true := by
  decide

/-- C5 amended: the fan-out computes per-channel results internally
(and logs them) but returns only the team-email channel's success flag;
Slack and escalation outcomes are not part of the returned value, and
the acknowledgment email is sent separately by the caller, which
aggregates successes into a count. -/
theorem claim5_amended_single_flag (cfg : RouterConfig) (env : SendEnv)
    (rr : RoutingResult) (cd : ComplaintData) :
    (send_team_notification cfg env rr cd).1 = env.teamSendOk := by
  rfl

instance {ε α : Type} [DecidableEq ε] [DecidableEq α] :
    DecidableEq (Except ε α) := fun x y =>
  match x, y with
  | .error a, .error b =>
    match decEq a b with
    | isTrue h => isTrue (by rw [h])
    | isFalse h => isFalse (fun hh => h (Except.error.inj hh))
  | .ok a, .ok b =>
    match decEq a b with
    | isTrue h => isTrue (by rw [h])
    | isFalse h => isFalse (fun hh => h (Except.ok.inj hh))
  | .error _, .ok _ => isFalse (fun hh => Except.noConfusion hh)
  | .ok _, .error _ => isFalse (fun hh => Except.noConfusion hh)

/-- A fresh refund email whose id is not yet in the store. -/
def email_c6 : EmailData :=
  { email_id := some "e6",
    subject := some "Refund please",
    body := some "Need my money back",
    sender := some "Bo Li <bo@x.com>",
    customer_email := some "bo@x.com" }

/-- Processing environment for C6: classification service unavailable,
default configuration, all sends succeeding. -/
def env_c6 : ProcEnv :=
  { aiResult := .apiError, cfg := defaultRouterConfig,
    sendEnv := sendEnvAllOk, now := "t6" }

/-- A store that already holds a record under the key `e6`. -/
def db_c6 : DB :=
  { rows := [{ id := 1, email_id := "e6", customer_email := "bo@x.com",
               customer_name := none, subject := "s", body := "b",
               category := "Refund Request", priority := "Medium",
               sentiment := none, assigned_team := "Refunds Team",
               key_entities := none, summary := none,
               suggested_action := none }],
    nextId := 2 }

/-- C6: the skip half of the claim holds — when the email id is already
persisted, processing returns before classifying, inserting or
notifying, leaving the store untouched — but processing a *fresh* key
does not persist one record and send one fan-out: `main.py` inserts at
Step 3 while `insert_complaint` reads `complaint_data['assigned_team']`,
which routing only sets at Step 4, so the insert raises `KeyError`, the
exception is re-raised, nothing is persisted and no notification of any
channel is attempted. -/
theorem claim6_idempotency_bug :
    (∀ (env : ProcEnv) (db : DB) (d : EmailData),
      (get_complaint_by_email_id db (d.email_id.getD "unknown")).isSome = true →
      process_single_complaint env db d =
        (.ok { classified := 0, routed := 0, notifications_sent := 0 }, db, {})) ∧
    process_single_complaint env_c6 {} email_c6 =
      (.error (.db .keyError), {}, { classified := true }) := by
  constructor
  · intro env db d h
    obtain ⟨r, hr⟩ := Option.isSome_iff_exists.mp h
    simp [process_single_complaint, hr]
  · decide

/-- Witness for C6: at the concrete store holding `e6`, processing the
same email skips — store unchanged, nothing classified, nothing sent. -/
theorem claim6_witness :
    process_single_complaint env_c6 db_c6 email_c6 =
      (.ok { classified := 0, routed := 0, notifications_sent := 0 },
       db_c6, {}) :=
  claim6_idempotency_bug.1 env_c6 db_c6 email_c6 (by decide)

/-- An empty complaint dictionary (no keys set). -/
def cd_c7 : ComplaintData := {}

/-- C7 counterexample: `route_complaint` does not leave the complaint
data it is given unchanged — it writes the computed `assigned_team`
into it (`complaint_data['assigned_team'] = assigned_team`). -/
theorem claim7_counterexample :
    (route_complaint defaultRouterConfig "2024-01-01T00:00:00" cd_c7).1
      ≠ cd_c7 := by
  decide

/-- C7 amended: `route_complaint` is deterministic in
`(category, priority)` — across configurations and clock values,
identical category and priority give identical `assigned_team` and
`escalation_actions` — but it mutates the complaint dictionary by
writing `assigned_team` into it (and changes nothing else). -/
theorem claim7_amended_route_determinism
    (cfg cfg2 : RouterConfig) (now now2 : String)
    (cd cd2 : ComplaintData)
    (hcat : cd.category = cd2.category)
    (hpri : cd.priority = cd2.priority) :
    ((route_complaint cfg now cd).2.assigned_team
        = (route_complaint cfg2 now2 cd2).2.assigned_team ∧
     (route_complaint cfg now cd).2.escalation_actions
        = (route_complaint cfg2 now2 cd2).2.escalation_actions) ∧
    (route_complaint cfg now cd).1
      = { cd with
          assigned_team := some ((route_complaint cfg now cd).2.assigned_team) } := by
  refine ⟨⟨?_, ?_⟩, ?_⟩ <;> simp [route_complaint, hcat, hpri]

/-- Two dictionaries agreeing on category and priority but differing
elsewhere. -/
def cd_c7a : ComplaintData :=
  { category := some "Billing Issue", priority := some "Urgent",
    subject := some "a" }

/-- See `cd_c7a`. -/
def cd_c7b : ComplaintData :=
  { category := some "Billing Issue", priority := some "Urgent",
    body := some "b" }

/-- Witness for C7: concrete complaints with equal category/priority
route to the same team with the same escalation actions. -/
theorem claim7_witness :
    (route_complaint defaultRouterConfig "t1" cd_c7a).2.assigned_team
      = (route_complaint defaultRouterConfig "t2" cd_c7b).2.assigned_team ∧
    (route_complaint defaultRouterConfig "t1" cd_c7a).2.escalation_actions
      = (route_complaint defaultRouterConfig "t2" cd_c7b).2.escalation_actions :=
  (claim7_amended_route_determinism defaultRouterConfig defaultRouterConfig
    "t1" "t2" cd_c7a cd_c7b rfl rfl).1

/-- C8: the Slack webhook POST is attempted exactly when a webhook URL
is configured (truthy) and the routed priority is `Urgent` or `High`;
in particular it is never attempted for `Low` priority even with a
webhook configured. -/
theorem claim8_slack_gating (cfg : RouterConfig) (env : SendEnv)
    (rr : RoutingResult) (cd : ComplaintData) :
    (send_team_notification cfg env rr cd).2.slackPosted
      = (strOptTruthy cfg.slack_webhook_url
          && (rr.priority == "Urgent" || rr.priority == "High")) := by
  cases hw : strOptTruthy cfg.slack_webhook_url <;>
    cases hp : (rr.priority == "Urgent" || rr.priority == "High") <;>
      simp [send_team_notification, slack_notification,
        send_escalation_notifications, hw, hp]

/-- The §8 entity-extraction example text. -/
def email_c9 : EmailData :=
  { email_id := some "e9",
    subject := some "Order #12345 ... (555) 123-4567" }

/-- C9 counterexample: on the example text the extracted phone number is
`" (555) 123-4567"` — the optional leading separator `[-.\s]?` sits
inside the capture group, so the space preceding `(` is part of the
leftmost match — not the claimed `"(555) 123-4567"`. -/
theorem claim9_counterexample :
    (extract_additional_entities email_c9 {}).phone_number
      = some " (555) 123-4567" ∧
    (extract_additional_entities email_c9 {}).phone_number
      ≠ some "(555) 123-4567" := by
  decide

/-- C9 amended: the order-number patterns are probed in the fixed order
of the source (`order #`, `order number:`, `#` plus six-plus word
characters, `ref:`) and the first match wins — whenever the first
pattern matches and no order number is present yet, its capture is the
result; on the example text this gives `order_number = "12345"`, and the
phone capture is `" (555) 123-4567"` with the leading separator
included. -/
theorem claim9_amended_entity_extraction :
    (∀ (t : List Char) (v : String) (e : Entities),
      strOptTruthy e.order_number = false →
      searchCapture orderPat1At t = some v →
      (orderLoop t e).order_number = some v) ∧
    (extract_additional_entities email_c9 {}).order_number = some "12345" ∧
    (extract_additional_entities email_c9 {}).phone_number
      = some " (555) 123-4567" := by
  refine ⟨fun t v e h hm => ?_, by decide, by decide⟩
  simp [orderLoop, orderLoop.go, hm, h]

/-- Witness for C9: the first pattern's capture on a concrete text wins
the probe loop. -/
theorem claim9_witness :
    (orderLoop "Order #12345".toList {}).order_number = some "12345" :=
  claim9_amended_entity_extraction.1 "Order #12345".toList "12345" {}
    (by decide) (by decide)

/-- A complaint whose category and priority are outside the valid sets. -/
def cd_c10 : ComplaintData :=
  { category := some "Weird", priority := some "Whatever" }

/-- C10: an unrecognized category still routes, to `General Support
Team`, and an unrecognized priority yields escalation actions `[team]`;
in both cases the decision's status is `routed`, not `routed_fallback` —
lookup-table defaults, not a routing failure. -/
theorem claim10_unknown_values_default (cfg : RouterConfig) (now : String)
    (cd : ComplaintData) :
    (elemStr (cd.category.getD "General Inquiry") valid_categories = false →
      (route_complaint cfg now cd).2.assigned_team = "General Support Team" ∧
      (route_complaint cfg now cd).2.status = "routed") ∧
    (elemStr (cd.priority.getD "Medium") valid_priorities = false →
      (route_complaint cfg now cd).2.escalation_actions = ["team"] ∧
      (route_complaint cfg now cd).2.status = "routed") := by
  constructor
  · intro h
    simp only [elemStr, valid_categories, Bool.or_eq_false_iff] at h
    refine ⟨?_, rfl⟩
    simp [route_complaint, determine_assigned_team,
      h.1, h.2.1, h.2.2.1, h.2.2.2.1, h.2.2.2.2.1, h.2.2.2.2.2.1,
      h.2.2.2.2.2.2.1]
  · intro h
    simp only [elemStr, valid_priorities, Bool.or_eq_false_iff] at h
    refine ⟨?_, rfl⟩
    simp [route_complaint, determine_escalation_actions,
      h.1, h.2.1, h.2.2.1, h.2.2.2.1]

/-- Witness for C10: the concrete unrecognized values take the table
defaults with status `routed`. -/
theorem claim10_witness :
    (route_complaint defaultRouterConfig "t10" cd_c10).2.assigned_team
      = "General Support Team" ∧
    (route_complaint defaultRouterConfig "t10" cd_c10).2.escalation_actions
      = ["team"] ∧
    (route_complaint defaultRouterConfig "t10" cd_c10).2.status = "routed" := by
  obtain ⟨h1, h2⟩ :=
    claim10_unknown_values_default defaultRouterConfig "t10" cd_c10
  exact ⟨(h1 (by decide)).1, (h2 (by decide)).1, (h1 (by decide)).2⟩

end Triage


